import Mathlib

/-!
Shallow embedding of the Global Digital Bank demo
(`global-digital-bank/src`): the `Account` model
(`models/account.py`), the service layer (`services/banking_services.py`
with the `Member2Features` and `Member6Features` helpers from
`models/member2.py` / `models/member6.py`), the account-number allocator,
and the CSV persistence round trip (`utils/file_manager.py`).

Money amounts are modelled as `ℚ` (the Python code uses `float`; every
amount in the claims is a small decimal, and the spec's rounding talk is
"2 decimal places", which `ℚ` expresses exactly).  Python `(ok, message)`
pairs become `Except BankError …` where each `BankError` constructor
corresponds to one distinct error-message branch of the source.
-/

namespace JioBank

/-- `Account.MIN_BALANCE` keys: the two normalized account types
(`account.py` coerces any other string to `"Savings"`). -/
inductive AccountType
  | Savings
  | Current
deriving DecidableEq, Repr

/-- Normalized `status` field: `__post_init__` maps any string other than
`"Active"` (after `.strip().title()`) to `"Inactive"`. -/
inductive Status
  | Active
  | Inactive
deriving DecidableEq, Repr

/-- `Account.MIN_BALANCE = {"Savings": 500.0, "Current": 1000.0}`. -/
def minBalance : AccountType → ℚ
  | .Savings => 500
  | .Current => 1000

/-- `Account.MAX_SINGLE_DEPOSIT = 100_000.0`. -/
def maxSingleDeposit : ℚ := 100000

/-- The `Account` dataclass (`models/account.py`), after the defensive
normalization done by `__post_init__` (PIN and `created_at` are omitted:
no claim mentions them). -/
structure Account where
  accountNumber : Nat
  name : String
  age : Int
  accountType : AccountType
  balance : ℚ
  status : Status
deriving DecidableEq, Repr

/-- `Account.is_active`: `str(self.status).lower() == "active"`. -/
def Account.isActive (a : Account) : Bool := a.status = Status.Active

/-- One constructor per distinct error-message branch in the source. -/
inductive BankError
  /-- "amount must be positive" / "Invalid … amount" branches. -/
  | invalidAmount
  /-- "Deposit exceeds single-transaction cap". -/
  | exceedsCap
  /-- "Account is not active" / "Both accounts must be active". -/
  | inactive
  /-- "Insufficient funds …" / "Would reduce balance below minimum …". -/
  | insufficientFunds
  /-- "Account not found" (any of the lookup-failure messages). -/
  | accountNotFound
  /-- "Action cannot be reversed". -/
  | notReversible
  /-- "No transaction file or no transactions for account". -/
  | noTransactions
deriving DecidableEq, Repr

/-- `Account.deposit` (`account.py` lines 147-168): positivity check,
then the single-transaction cap, then the active check, then
`self.balance += amt`. -/
def Account.deposit (a : Account) (amt : ℚ) : Except BankError Account :=
  if amt ≤ 0 then .error .invalidAmount
  else if maxSingleDeposit < amt then .error .exceedsCap
  else if ¬ a.isActive then .error .inactive
  else .ok { a with balance := a.balance + amt }

/-- `Account.withdraw` (`account.py` lines 170-198): positivity check,
active check, then the per-type minimum-balance floor
(`remaining < min_required` fails), then `self.balance -= amt`. -/
def Account.withdraw (a : Account) (amt : ℚ) : Except BankError Account :=
  if amt ≤ 0 then .error .invalidAmount
  else if ¬ a.isActive then .error .inactive
  else if a.balance - amt < minBalance a.accountType then .error .insufficientFunds
  else .ok { a with balance := a.balance - amt }

/-- `Account.apply_overdraft_fee`: unconditionally `self.balance -= fee`
(the balance may go negative). -/
def Account.applyOverdraftFee (a : Account) (fee : ℚ) : Account :=
  { a with balance := a.balance - fee }

/-- An overdraft policy, `member6.set_overdraft`: `{"limit": …, "fee": …}`. -/
structure Overdraft where
  limit : ℚ
  fee : ℚ
deriving DecidableEq, Repr

/-- One row of `data/transactions.csv` as written by
`file_manager.log_transaction` (the uuid `tx_id`, timestamp and free-text
note are omitted: no claim depends on them). The log list is kept oldest
first; `log_transaction` appends at the end. -/
structure LogEntry where
  accountNumber : Nat
  action : String
  amount : ℚ
  balanceAfter : ℚ
deriving DecidableEq, Repr

/-- The in-memory state reachable from `BankingService`: the shared
`accounts` dict, `Member6Features.overdraft`, `Member6Features.locked_accounts`
and the transaction log. (`Member2Features._daily_totals` is omitted: every
claim calls `deposit`/`withdraw` with `daily_limit=None`, in which case the
daily totals are written but never read.) -/
structure Bank where
  accounts : List (Nat × Account)
  overdraft : List (Nat × Overdraft)
  locked : List Nat
  log : List LogEntry
deriving DecidableEq, Repr

/-- `self.accounts.get(acc_no)`. -/
def Bank.getAccount (b : Bank) (n : Nat) : Option Account :=
  b.accounts.lookup n

/-- Balance of an account in the bank, if present. -/
def Bank.balanceOf (b : Bank) (n : Nat) : Option ℚ :=
  (b.getAccount n).map Account.balance

/-- Mutating the `Account` object stored under key `n` (Python mutates the
shared object in place; on the association list this is a keyed map). -/
def updAccounts (l : List (Nat × Account)) (n : Nat) (a : Account) :
    List (Nat × Account) :=
  l.map fun p => if p.1 = n then (n, a) else p

/-- `acc.balance += d` on the object stored under key `n` (used by
`Member2Features.transfer`, which adjusts `src.balance` and `dst.balance`
directly; going through the stored object keeps Python's aliasing
semantics when the two keys coincide). -/
def adjustBalance (l : List (Nat × Account)) (n : Nat) (d : ℚ) :
    List (Nat × Account) :=
  l.map fun p => if p.1 = n then (p.1, { p.2 with balance := p.2.balance + d }) else p

/-- `BankingService.deposit` with `daily_limit=None`
(`banking_services.py` lines 113-145): look the account up, call
`Account.deposit`, and on success append a `DEPOSIT` log entry.
No step consults `Member6Features.locked_accounts`. -/
def serviceDeposit (b : Bank) (accNo : Nat) (amt : ℚ) :
    Except BankError Unit × Bank :=
  match b.accounts.lookup accNo with
  | none => (.error .accountNotFound, b)
  | some acc =>
    match acc.deposit amt with
    | .error e => (.error e, b)
    | .ok acc' =>
      (.ok (), { b with
        accounts := updAccounts b.accounts accNo acc',
        log := b.log ++ [⟨accNo, "DEPOSIT", amt, acc'.balance⟩] })

/-- `Member2Features.can_withdraw_without_violating_min(acc, amount)` as
called from `BankingService.withdraw` (two positional arguments, so
`min_allowed` keeps its default `500.0`). -/
def canWithdrawHelper (acc : Account) (amt : ℚ) : Except BankError Unit :=
  if amt ≤ 0 then .error .invalidAmount
  else if acc.balance - amt < 500 then .error .insufficientFunds
  else .ok ()

/-- `BankingService.withdraw` with `daily_limit=None`
(`banking_services.py` lines 148-250): the member2 helper gates the
withdrawal against the fixed `500.0` floor; if it refuses and the account
has an overdraft policy with `projected < 0 and abs(projected) <= limit`,
the code retries `acc.withdraw(amount)` and, on success, applies the fee
and logs `OVERDRAFT_FEE` then `WITHDRAW`; otherwise the helper's failure
is returned. When the helper accepts, `acc.withdraw` runs and a `WITHDRAW`
entry is logged on success. -/
def serviceWithdraw (b : Bank) (accNo : Nat) (amt : ℚ) :
    Except BankError Unit × Bank :=
  match b.accounts.lookup accNo with
  | none => (.error .accountNotFound, b)
  | some acc =>
    match canWithdrawHelper acc amt with
    | .ok _ =>
      match acc.withdraw amt with
      | .error e => (.error e, b)
      | .ok acc' =>
        (.ok (), { b with
          accounts := updAccounts b.accounts accNo acc',
          log := b.log ++ [⟨accNo, "WITHDRAW", amt, acc'.balance⟩] })
    | .error he =>
      match b.overdraft.lookup accNo with
      | some od =>
        let projected := acc.balance - amt
        if projected < 0 ∧ |projected| ≤ od.limit then
          match acc.withdraw amt with
          | .ok acc' =>
            let acc2 := acc'.applyOverdraftFee od.fee
            (.ok (), { b with
              accounts := updAccounts b.accounts accNo acc2,
              log := b.log ++ [⟨accNo, "OVERDRAFT_FEE", od.fee, acc2.balance⟩,
                               ⟨accNo, "WITHDRAW", amt, acc2.balance⟩] })
          | .error e => (.error e, b)
        else (.error he, b)
      | none => (.error he, b)

/-- `BankingService.transfer`, which delegates to `Member2Features.transfer`
with `min_balance=500.0` and `log_func=log_transaction`
(`banking_services.py` lines 253-273, `member2.py` lines 83-124):
look both accounts up, require both active, enforce the fixed
`min_balance` floor on the source, then adjust the two balances and log
`TRANSFER_OUT->…` / `TRANSFER_IN<-…` with the post-mutation balances. -/
def serviceTransfer (b : Bank) (fromNo toNo : Nat) (amt : ℚ) :
    Except BankError Unit × Bank :=
  match b.accounts.lookup fromNo with
  | none => (.error .accountNotFound, b)
  | some src =>
    match b.accounts.lookup toNo with
    | none => (.error .accountNotFound, b)
    | some dst =>
      if ¬ (src.isActive && dst.isActive) then (.error .inactive, b)
      else if src.balance - amt < 500 then (.error .insufficientFunds, b)
      else
        let accounts1 := adjustBalance b.accounts fromNo (-amt)
        let accounts2 := adjustBalance accounts1 toNo amt
        let srcBal := ((accounts2.lookup fromNo).map Account.balance).getD 0
        let dstBal := ((accounts2.lookup toNo).map Account.balance).getD 0
        (.ok (), { b with
          accounts := accounts2,
          log := b.log ++
            [⟨fromNo, "TRANSFER_OUT->" ++ toString toNo, amt, srcBal⟩,
             ⟨toNo, "TRANSFER_IN<-" ++ toString fromNo, amt, dstBal⟩] })

/-- `Member6Features.lock_account`: `self.locked_accounts.add(acc_no)`,
always reporting success. Nothing else in the codebase reads the set. -/
def lockAccount (b : Bank) (n : Nat) : Bank :=
  { b with locked := if n ∈ b.locked then b.locked else n :: b.locked }

/-- `Member6Features.unlock_account`: `self.locked_accounts.discard(acc_no)`. -/
def unlockAccount (b : Bank) (n : Nat) : Bank :=
  { b with locked := b.locked.erase n }

/-- Substring test on character lists: Python's `pat in s`. -/
def charsContain (pat : List Char) : List Char → Bool
  | [] => pat.isEmpty
  | c :: t => pat.isPrefixOf (c :: t) || charsContain pat t

/-- Python's `pat in s` on strings (used by
`Member6Features.reverse_last_transaction` to classify log actions). -/
def strContains (s pat : String) : Bool :=
  charsContain pat.toList s.toList

/-- `file_manager.read_transactions_for(account_number)`: the rows of the
log belonging to the account, most recent first. -/
def Bank.txsFor (b : Bank) (n : Nat) : List LogEntry :=
  (b.log.filter fun e => e.accountNumber == n).reverse

/-- `Member6Features.reverse_last_transaction(acc_no, log_func=log_transaction)`
(`member6.py` lines 183-213): take the most recent log row for the account;
if its action contains `"DEPOSIT"` or `"TRANSFER_IN"` as a substring,
compensate with `acc.withdraw(amount)` and log `REVERSAL-><action>` with
amount `-amount`; else if it contains `"WITHDRAW"` or `"TRANSFER_OUT"`,
compensate with `acc.deposit(amount)` and log `REVERSAL-><action>`;
otherwise fail with "Action cannot be reversed". -/
def reverseLastTransaction (b : Bank) (accNo : Nat) :
    Except BankError Unit × Bank :=
  match b.txsFor accNo with
  | [] => (.error .noTransactions, b)
  | last :: _ =>
    match b.accounts.lookup accNo with
    | none => (.error .accountNotFound, b)
    | some acc =>
      if strContains last.action "DEPOSIT" || strContains last.action "TRANSFER_IN" then
        match acc.withdraw last.amount with
        | .ok acc' =>
          (.ok (), { b with
            accounts := updAccounts b.accounts accNo acc',
            log := b.log ++
              [⟨accNo, "REVERSAL->" ++ last.action, -last.amount, acc'.balance⟩] })
        | .error e => (.error e, b)
      else if strContains last.action "WITHDRAW" || strContains last.action "TRANSFER_OUT" then
        match acc.deposit last.amount with
        | .ok acc' =>
          (.ok (), { b with
            accounts := updAccounts b.accounts accNo acc',
            log := b.log ++
              [⟨accNo, "REVERSAL->" ++ last.action, last.amount, acc'.balance⟩] })
        | .error e => (.error e, b)
      else (.error .notReversible, b)

/-- One pending scheduled transfer (`Member6Features.schedule_transfer`);
`execute_at` is an abstract discrete timestamp. -/
structure ScheduledJob where
  fromAcc : Nat
  toAcc : Nat
  amount : ℚ
  executeAt : Nat
deriving DecidableEq, Repr

/-- `Member6Features.run_due_scheduled_transfers(banking_service, now)`
(`member6.py` lines 74-85): walk the pending list in order; a job with
`execute_at <= now` is handed to `banking_service.transfer` (whatever the
outcome) and recorded in `executed`; any other job is kept. The pending
list is replaced by the kept jobs. Returns (remaining, executed, bank). -/
def runDueScheduled (jobs : List ScheduledJob) (now : Nat) (b : Bank) :
    List ScheduledJob × List (ScheduledJob × Except BankError Unit) × Bank :=
  match jobs with
  | [] => ([], [], b)
  | j :: rest =>
    if j.executeAt ≤ now then
      let r := serviceTransfer b j.fromAcc j.toAcc j.amount
      let t := runDueScheduled rest now r.2
      (t.1, (j, r.1) :: t.2.1, t.2.2)
    else
      let t := runDueScheduled rest now b
      (j :: t.1, t.2.1, t.2.2)

/-- The allocator state of `BankingService`: the accounts dict plus
`next_account_number` (`banking_services.py` lines 39-51;
`START_ACCOUNT_NO = 1001` on a fresh ledger). -/
structure Ledger where
  accounts : List (Nat × Account)
  nextAccountNumber : Nat
deriving Repr

/-- A fresh service: no accounts, `next_account_number = 1001`. -/
def initLedger : Ledger := ⟨[], 1001⟩

/-- `BankingService.create_account` (`banking_services.py` lines 70-110):
age must be at least 18 (`Member4Features.verify_age`), the account type
must parse to a valid type (`none` models an unrecognized type string),
and the initial deposit must reach the type's minimum; only then is
`next_account_number` handed out and incremented. Returns the allocated
number, if any. -/
def Ledger.createAccount (l : Ledger) (name : String) (age : Int)
    (atype : Option AccountType) (initialDeposit : ℚ) : Option Nat × Ledger :=
  if age < 18 then (none, l)
  else
    match atype with
    | none => (none, l)
    | some t =>
      if initialDeposit < minBalance t then (none, l)
      else
        let n := l.nextAccountNumber
        let acc : Account := ⟨n, name, age, t, initialDeposit, .Active⟩
        (some n, ⟨l.accounts ++ [(n, acc)], n + 1⟩)

/-- Deleting one account from the dict (`del self.accounts[n]` as done by
account-deletion features); `next_account_number` is untouched. -/
def Ledger.deleteOne (l : Ledger) (n : Nat) : Ledger :=
  { l with accounts := l.accounts.filter fun p => p.1 ≠ n }

/-- `BankingService.delete_all_accounts` / `Member4Features.delete_all_accounts`:
`self.accounts.clear()`; `next_account_number` is untouched. -/
def Ledger.deleteAll (l : Ledger) : Ledger :=
  { l with accounts := [] }

/-- The account-management operations that touch the accounts table. -/
inductive LedgerOp
  | create (name : String) (age : Int) (atype : Option AccountType) (initialDeposit : ℚ)
  | deleteOne (n : Nat)
  | deleteAll

/-- Run a sequence of operations from a state, collecting the account
numbers allocated by the successful `create` operations, in order. -/
def runOps : Ledger → List LedgerOp → Ledger × List Nat
  | l, [] => (l, [])
  | l, .create name age atype dep :: rest =>
    let r := l.createAccount name age atype dep
    let t := runOps r.2 rest
    (t.1, r.1.toList ++ t.2)
  | l, .deleteOne n :: rest => runOps (l.deleteOne n) rest
  | l, .deleteAll :: rest => runOps l.deleteAll rest

/-- Rounding to 2 decimal places: the effect of `f"{balance:.2f}"` on the
stored balance (`Account.to_dict`), in the rational model. -/
def round2 (q : ℚ) : ℚ := (round (q * 100) : ℤ) / 100

/-- One CSV row of `data/accounts.csv` as written by
`file_manager.save_accounts`; the `balance` field carries the value of
the 2-decimal string, and `account_type` / `status` are the literal
strings written (`pin` / `created_at` omitted: not part of the claim's
tuple). -/
structure Row where
  account_number : Nat
  name : String
  age : Int
  balance : ℚ
  account_type : String
  status : String
deriving DecidableEq, Repr

/-- The string `Account.to_dict` writes for the status field. -/
def statusString : Status → String
  | .Active => "Active"
  | .Inactive => "Inactive"

/-- The string `Account.to_dict` writes for the account-type field. -/
def typeString : AccountType → String
  | .Savings => "Savings"
  | .Current => "Current"

/-- `__post_init__` status normalization: `"Active"` (after
`.strip().title()`, identity on the canonical strings `to_dict` writes)
maps to Active, everything else to Inactive. -/
def parseStatus (s : String) : Status :=
  if s = "Active" then .Active else .Inactive

/-- `__post_init__` type normalization: a string outside `MIN_BALANCE`
falls back to `"Savings"` (title-casing is the identity on the canonical
strings `to_dict` writes). -/
def parseType (s : String) : AccountType :=
  if s = "Current" then .Current else .Savings

/-- `Account.to_dict` (`account.py` lines 242-253), restricted to the
fields a `Row` keeps; the balance is formatted with 2 decimals. -/
def Account.toDict (a : Account) : Row :=
  ⟨a.accountNumber, a.name, a.age, round2 a.balance,
   typeString a.accountType, statusString a.status⟩

/-- `Account.from_dict` (`account.py` lines 255-267) followed by the
`__post_init__` normalization of the constructed dataclass. -/
def Account.fromDict (r : Row) : Account :=
  ⟨r.account_number, r.name.trim, r.age, parseType r.account_type,
   r.balance, parseStatus r.status⟩

/-- `file_manager.save_accounts` (lines 49-76): iterate the dict keys in
sorted order and write each account's `to_dict` row. -/
def saveAccounts (accounts : List (Nat × Account)) : List Row :=
  (accounts.mergeSort fun p q => p.1 ≤ q.1).map fun p => p.2.toDict

/-- `accounts[acc_no] = acc` on the insertion-ordered dict. -/
def dictSet (m : List (Nat × Account)) (k : Nat) (v : Account) :
    List (Nat × Account) :=
  if m.any fun p => p.1 == k then
    m.map fun p => if p.1 = k then (k, v) else p
  else m ++ [(k, v)]

/-- `file_manager.load_accounts` (lines 20-47): read the rows in file
order, parse each with `Account.from_dict`, and store it in the dict
under its `account_number`. -/
def loadAccounts (rows : List Row) : List (Nat × Account) :=
  rows.foldl (fun m r => dictSet m r.account_number (Account.fromDict r)) []

/-- The tuple the round-trip claim compares, with the balance taken after
rounding to 2 decimal places. -/
def tupleOf (a : Account) : Nat × ℚ × Status × AccountType :=
  (a.accountNumber, round2 a.balance, a.status, a.accountType)

/-- A Savings account with balance 100.00, the overdraft scenario's input. -/
def savingsOD : Account := ⟨1001, "Asha", 30, .Savings, 100, .Active⟩

/-- Bank holding `savingsOD` with overdraft policy `{limit: 200, fee: 10}`. -/
def bankOD : Bank := ⟨[(1001, savingsOD)], [(1001, ⟨200, 10⟩)], [], []⟩

/-- Account 1001 for the lock scenario: Active, Savings, balance 1000.00. -/
def acctLK : Account := ⟨1001, "Asha", 30, .Savings, 1000, .Active⟩

/-- A second active account for the locked-transfer check. -/
def acctLK2 : Account := ⟨1002, "Vikram", 28, .Savings, 600, .Active⟩

/-- Bank with the two accounts, no locks yet. -/
def bankLK : Bank := ⟨[(1001, acctLK), (1002, acctLK2)], [], [], []⟩

/-- `bankLK` after `lock_account(1001)`. -/
def bankLKlocked : Bank := lockAccount bankLK 1001

/-- A Current account with balance 1400.00: withdrawing 500.00 would leave
900.00, below the Current minimum of 1000.00 but above 500.00. -/
def srcCur : Account := ⟨1001, "Asha", 30, .Current, 1400, .Active⟩

/-- An active Savings destination account. -/
def dstSav : Account := ⟨1002, "Vikram", 28, .Savings, 1000, .Active⟩

/-- Bank for the per-type-floor transfer scenario. -/
def bankFloor : Bank := ⟨[(1001, srcCur), (1002, dstSav)], [], [], []⟩

/-- A fresh Savings account with balance 500.00 (claim C5's scenario). -/
def savings500 : Account := ⟨1001, "Asha", 30, .Savings, 500, .Active⟩

/-- `savings500` after the 200.00 deposit. -/
def savings700 : Account := ⟨1001, "Asha", 30, .Savings, 700, .Active⟩

/-- `savings700` after the 100.00 withdrawal. -/
def savings600 : Account := ⟨1001, "Asha", 30, .Savings, 600, .Active⟩

/-- Account whose most recent log entry is a previously written REVERSAL
entry (`REVERSAL->WITHDRAW`). -/
def acctRR : Account := ⟨1001, "Asha", 30, .Savings, 1000, .Active⟩

/-- Bank whose log for account 1001 ends in a `REVERSAL->WITHDRAW` entry. -/
def bankRR : Bank := ⟨[(1001, acctRR)], [], [],
  [⟨1001, "REVERSAL->WITHDRAW", 100, 1100⟩]⟩

/-- Account for the reversal-dispatch witness. -/
def acctRV : Account := ⟨1001, "Asha", 30, .Savings, 1000, .Active⟩

/-- A plain `DEPOSIT` log entry of 100.00 for account 1001. -/
def entryRV : LogEntry := ⟨1001, "DEPOSIT", 100, 1000⟩

/-- Bank whose only log row for 1001 is the `DEPOSIT` entry. -/
def bankRV : Bank := ⟨[(1001, acctRV)], [], [], [entryRV]⟩

/-- `acctRV` after the compensating withdrawal of 100.00. -/
def acctRV900 : Account := { acctRV with balance := acctRV.balance - 100 }

/-- Source account for the cap-bypass scenario: Savings, 300000.00. -/
def srcBig : Account := ⟨2001, "Asha", 30, .Savings, 300000, .Active⟩

/-- Destination account for the cap-bypass scenario: Savings, 1000.00. -/
def dstSmall : Account := ⟨2002, "Vikram", 28, .Savings, 1000, .Active⟩

/-- Bank for the cap-bypass scenario. -/
def bankCap : Bank := ⟨[(2001, srcBig), (2002, dstSmall)], [], [], []⟩

/-- A Savings account whose balance has more than 2 decimal places. -/
def wtA : Account := ⟨1001, "Asha", 30, .Savings, 1234567 / 1000, .Active⟩

/-- An inactive Current account. -/
def wtB : Account := ⟨1002, "Vikram", 45, .Current, 5000, .Inactive⟩

/-- A two-account collection for the round-trip witness. -/
def colW : List (Nat × Account) := [(1001, wtA), (1002, wtB)]

/-- Every failing branch of `Member2Features.transfer` returns before the
balances are mutated, so a failed transfer leaves the bank untouched. -/
theorem serviceTransfer_error_eq (b : Bank) (f t : Nat) (amt : ℚ) (e : BankError)
    (h : (serviceTransfer b f t amt).1 = .error e) :
    (serviceTransfer b f t amt).2 = b := by
  unfold serviceTransfer at h ⊢
  cases hf : b.accounts.lookup f with
  | none => simp [hf]
  | some src =>
    cases ht : b.accounts.lookup t with
    | none => simp [hf, ht]
    | some dst =>
      simp only [hf, ht] at h ⊢
      split_ifs at h ⊢ <;> rfl

/-- `create_account` either fails leaving the ledger unchanged, or returns
the current `next_account_number` and increments it. -/
theorem createAccount_cases (l : Ledger) (name : String) (age : Int)
    (atype : Option AccountType) (dep : ℚ) :
    (l.createAccount name age atype dep).1 = none ∧
      (l.createAccount name age atype dep).2 = l ∨
    (l.createAccount name age atype dep).1 = some l.nextAccountNumber ∧
      (l.createAccount name age atype dep).2.nextAccountNumber = l.nextAccountNumber + 1 := by
  unfold Ledger.createAccount
  split_ifs with h1
  · exact Or.inl ⟨rfl, rfl⟩
  · cases atype with
    | none => exact Or.inl ⟨rfl, rfl⟩
    | some t =>
      simp only
      split_ifs with h2
      · exact Or.inl ⟨rfl, rfl⟩
      · exact Or.inr ⟨rfl, rfl⟩

/-- Running any operation sequence allocates a contiguous block of account
numbers starting at the ledger's `next_account_number`. -/
theorem runOps_allocs (ops : List LedgerOp) (l : Ledger) :
    ∃ k, (runOps l ops).2 = List.range' l.nextAccountNumber k ∧
      (runOps l ops).1.nextAccountNumber = l.nextAccountNumber + k := by
  induction ops generalizing l with
  | nil => exact ⟨0, rfl, rfl⟩
  | cons op rest ih =>
    cases op with
    | create name age atype dep =>
      obtain ⟨k, hk1, hk2⟩ := ih (l.createAccount name age atype dep).2
      rcases createAccount_cases l name age atype dep with ⟨h1, h2⟩ | ⟨h1, h2⟩
      · rw [h2] at hk1 hk2
        refine ⟨k, ?_, ?_⟩
        · simp only [runOps, h1, h2, Option.toList_none, List.nil_append, hk1]
        · simp only [runOps, h2, hk2]
      · refine ⟨k + 1, ?_, ?_⟩
        · simp only [runOps, h1, Option.toList_some, List.singleton_append, hk1, h2]
          rw [List.range'_succ]
        · simp only [runOps, hk2, h2]
          omega
    | deleteOne n =>
      obtain ⟨k, hk1, hk2⟩ := ih (l.deleteOne n)
      exact ⟨k, by simpa [runOps, Ledger.deleteOne] using hk1,
        by simpa [runOps, Ledger.deleteOne] using hk2⟩
    | deleteAll =>
      obtain ⟨k, hk1, hk2⟩ := ih l.deleteAll
      exact ⟨k, by simpa [runOps, Ledger.deleteAll] using hk1,
        by simpa [runOps, Ledger.deleteAll] using hk2⟩

/-- Rounding to 2 decimal places is idempotent. -/
theorem round2_round2 (q : ℚ) : round2 (round2 q) = round2 q := by
  unfold round2
  rw [div_mul_cancel₀ _ (by norm_num : (100 : ℚ) ≠ 0), round_intCast]

/-- Writing an account to a CSV row and parsing it back preserves the
`(accountNumber, round2 balance, status, accountType)` tuple. -/
theorem tupleOf_fromDict_toDict (a : Account) :
    tupleOf (Account.fromDict (Account.toDict a)) = tupleOf a := by
  unfold tupleOf Account.fromDict Account.toDict
  cases hs : a.status <;> cases ht : a.accountType <;>
    simp [parseStatus, statusString, parseType, typeString, round2_round2]

/-- Inserting a key not yet present in the dict appends the pair. -/
theorem dictSet_of_fresh (m : List (Nat × Account)) (k : Nat) (v : Account)
    (h : ∀ p ∈ m, p.1 ≠ k) : dictSet m k v = m ++ [(k, v)] := by
  unfold dictSet
  rw [if_neg]
  intro hcon
  simp only [List.any_eq_true, beq_iff_eq] at hcon
  obtain ⟨p, hp, hpk⟩ := hcon
  exact h p hp hpk

/-- Loading rows with pairwise distinct `account_number`s into a dict that
contains none of them parses each row once, in order. -/
theorem load_foldl (rows : List Row) (m : List (Nat × Account))
    (hnd : (rows.map fun r => r.account_number).Nodup)
    (hdisj : ∀ r ∈ rows, ∀ p ∈ m, p.1 ≠ r.account_number) :
    rows.foldl (fun m r => dictSet m r.account_number (Account.fromDict r)) m =
      m ++ rows.map fun r => (r.account_number, Account.fromDict r) := by
  induction rows generalizing m with
  | nil => simp
  | cons r rest ih =>
    rw [List.map_cons, List.nodup_cons] at hnd
    obtain ⟨hrnotin, hndrest⟩ := hnd
    simp only [List.foldl_cons]
    rw [dictSet_of_fresh m r.account_number (Account.fromDict r)
      (fun p hp => hdisj r (by simp) p hp)]
    rw [ih (m ++ [(r.account_number, Account.fromDict r)]) hndrest ?_]
    · simp
    · intro r' hr' p hp
      rcases List.mem_append.mp hp with hpm | hpx
      · exact hdisj r' (List.mem_cons_of_mem _ hr') p hpm
      · have : p = (r.account_number, Account.fromDict r) := by simpa using hpx
        subst this
        intro hcon
        apply hrnotin
        simp only at hcon
        exact hcon ▸ List.mem_map_of_mem (fun r => r.account_number) hr'

/-- Claim C1: the spec says a withdraw of 250.00 from a balance of 100.00
under overdraft `{limit: 200, fee: 10}` succeeds with resulting balance
-160.00 and WITHDRAW + OVERDRAFT_FEE log entries. The code disagrees: the
overdraft branch of `BankingService.withdraw` re-runs `Account.withdraw`,
which re-enforces the per-type minimum-balance floor, so the forced
withdrawal fails and the bank (balance and log) is left untouched. -/
theorem overdraft_withdraw_never_forces :
    bankOD.balanceOf 1001 = some 100 ∧
    bankOD.overdraft.lookup 1001 = some ⟨200, 10⟩ ∧
    (serviceWithdraw bankOD 1001 250).1 = .error .insufficientFunds ∧
    (serviceWithdraw bankOD 1001 250).2 = bankOD := by
  refine ⟨rfl, rfl, ?_⟩
  norm_num [serviceWithdraw, bankOD, savingsOD, canWithdrawHelper, Account.withdraw,
    Account.isActive, minBalance, List.lookup]

/-- Claim C2: the spec says a locked account rejects deposit, withdraw and
transfer with `AccountLocked`. The code disagrees: `lock_account` only adds
the number to `Member6Features.locked_accounts`, and no transaction path
ever reads that set, so after locking account 1001 a deposit of 100.00
succeeds (balance 1100.00), and withdraw and transfer succeed likewise. -/
theorem locked_account_operations_succeed :
    1001 ∈ bankLKlocked.locked ∧
    (serviceDeposit bankLKlocked 1001 100).1 = .ok () ∧
    (serviceDeposit bankLKlocked 1001 100).2.balanceOf 1001 = some 1100 ∧
    (serviceWithdraw bankLKlocked 1001 100).1 = .ok () ∧
    (serviceTransfer bankLKlocked 1001 1002 100).1 = .ok () := by
  refine ⟨by decide, ?_⟩
  norm_num [serviceDeposit, serviceWithdraw, serviceTransfer, bankLKlocked, lockAccount,
    bankLK, acctLK, acctLK2, Account.deposit, Account.withdraw, canWithdrawHelper,
    Account.isActive, maxSingleDeposit, minBalance, List.lookup, Bank.balanceOf,
    Bank.getAccount, updAccounts, show ((1002 : Nat) == 1001) = false from rfl]

/-- Claim C3 counterexample: account 1001 is a Current account with balance
1400.00; transferring 500.00 leaves 900.00, below the Current minimum of
1000.00, so the claim says the transfer fails with InsufficientFunds — but
the service passes the fixed `min_balance=500.0` to `Member2Features.transfer`
and the transfer succeeds. -/
theorem transfer_per_type_floor_refuted :
    bankFloor.getAccount 1001 = some srcCur ∧
    srcCur.accountType = .Current ∧
    srcCur.isActive = true ∧ dstSav.isActive = true ∧
    srcCur.balance - 500 < minBalance srcCur.accountType ∧
    (serviceTransfer bankFloor 1001 1002 500).1 = .ok () := by
  refine ⟨rfl, rfl, rfl, rfl, by norm_num [srcCur, minBalance], ?_⟩
  norm_num [serviceTransfer, bankFloor, srcCur, dstSav, Account.isActive, List.lookup,
    show ((1002 : Nat) == 1001) = false from rfl]

/-- Claim C3 (amended): with both accounts present and active, the
service-level transfer fails with InsufficientFunds exactly when the source
balance minus the amount is below the fixed 500.00 floor that
`BankingService.transfer` hands to `Member2Features.transfer`, regardless of
the source account's type. -/
theorem transfer_insufficient_iff_fixed_floor (b : Bank) (f t : Nat) (amt : ℚ)
    (src dst : Account)
    (hf : b.accounts.lookup f = some src) (ht : b.accounts.lookup t = some dst)
    (hsa : src.isActive = true) (hda : dst.isActive = true) :
    (serviceTransfer b f t amt).1 = .error .insufficientFunds ↔
      src.balance - amt < 500 := by
  unfold serviceTransfer
  simp only [hf, ht, hsa, hda]
  split_ifs with h1 h2 <;> simp_all

/-- Witness for the amended claim C3 at the concrete Current-source bank. -/
theorem transfer_insufficient_iff_fixed_floor_witness :
    bankFloor.accounts.lookup 1001 = some srcCur ∧
    bankFloor.accounts.lookup 1002 = some dstSav ∧
    srcCur.isActive = true ∧ dstSav.isActive = true ∧
    ((serviceTransfer bankFloor 1001 1002 500).1 = .error .insufficientFunds ↔
      srcCur.balance - 500 < 500) :=
  ⟨rfl, rfl, rfl, rfl,
    transfer_insufficient_iff_fixed_floor bankFloor 1001 1002 500 srcCur dstSav
      rfl rfl rfl rfl⟩

/-- Claim C4: transfer atomicity — whenever the service-level transfer
fails, both the source and the destination balances are exactly their
pre-call values (in `Member2Features.transfer` every failing branch returns
before either balance is mutated). -/
theorem transfer_atomicity (b : Bank) (f t : Nat) (amt : ℚ) (e : BankError)
    (h : (serviceTransfer b f t amt).1 = .error e) :
    (serviceTransfer b f t amt).2.balanceOf f = b.balanceOf f ∧
    (serviceTransfer b f t amt).2.balanceOf t = b.balanceOf t := by
  rw [serviceTransfer_error_eq b f t amt e h]
  exact ⟨rfl, rfl⟩

/-- Witness for claim C4: a transfer that fails with InsufficientFunds
leaves both balances unchanged. -/
theorem transfer_atomicity_witness :
    (serviceTransfer bankFloor 1001 1002 5000).1 = .error .insufficientFunds ∧
    (serviceTransfer bankFloor 1001 1002 5000).2.balanceOf 1001 = bankFloor.balanceOf 1001 ∧
    (serviceTransfer bankFloor 1001 1002 5000).2.balanceOf 1002 = bankFloor.balanceOf 1002 := by
  have herr : (serviceTransfer bankFloor 1001 1002 5000).1 = .error .insufficientFunds := by
    norm_num [serviceTransfer, bankFloor, srcCur, dstSav, Account.isActive, List.lookup,
      show ((1002 : Nat) == 1001) = false from rfl]
  exact ⟨herr, transfer_atomicity bankFloor 1001 1002 5000 .insufficientFunds herr⟩

/-- Claim C5: `Account.withdraw` fails with the invalid-amount error when
the amount is nonpositive, with the inactive error when the status is not
Active, with InsufficientFunds when the remaining balance would drop below
the per-type minimum, and otherwise succeeds decreasing the balance by
exactly the amount; moreover a fresh Savings account with balance 500.00
rejects a 100.00 withdrawal, accepts a 200.00 deposit to 700.00, then
accepts a 100.00 withdrawal to 600.00. -/
theorem account_withdraw_spec (a : Account) (amt : ℚ) :
    (amt ≤ 0 → a.withdraw amt = .error .invalidAmount) ∧
    (0 < amt → a.status ≠ .Active → a.withdraw amt = .error .inactive) ∧
    (0 < amt → a.status = .Active → a.balance - amt < minBalance a.accountType →
      a.withdraw amt = .error .insufficientFunds) ∧
    (0 < amt → a.status = .Active → minBalance a.accountType ≤ a.balance - amt →
      a.withdraw amt = .ok { a with balance := a.balance - amt }) ∧
    savings500.withdraw 100 = .error .insufficientFunds ∧
    savings500.deposit 200 = .ok savings700 ∧
    savings700.withdraw 100 = .ok savings600 := by
  refine ⟨fun h => ?_, fun h hs => ?_, fun h hs hb => ?_, fun h hs hb => ?_, ?_, ?_, ?_⟩
  · simp [Account.withdraw, h]
  · simp [Account.withdraw, Account.isActive, not_le.mpr h, hs]
  · simp [Account.withdraw, Account.isActive, not_le.mpr h, hs, hb]
  · simp [Account.withdraw, Account.isActive, not_le.mpr h, hs, not_lt.mpr hb]
  · norm_num [Account.withdraw, savings500, Account.isActive, minBalance]
  · norm_num [Account.deposit, savings500, savings700, Account.isActive, maxSingleDeposit]
  · norm_num [Account.withdraw, savings700, savings600, Account.isActive, minBalance]

/-- Witness for claim C5: the success branch at `savings700` with a 100.00
withdrawal, discharging the positivity, status and floor hypotheses. -/
theorem account_withdraw_spec_witness :
    savings700.withdraw 100 = .ok { savings700 with balance := savings700.balance - 100 } :=
  (account_withdraw_spec savings700 100).2.2.2.1 (by norm_num) rfl
    (by norm_num [savings700, minBalance])

/-- Claim C6 counterexample: the claim says a previously written REVERSAL
entry fails with NotReversible, but `reverse_last_transaction` classifies
actions by substring, so the `REVERSAL->WITHDRAW` entry matches `WITHDRAW`
and is compensated again by a deposit: the call succeeds and the balance
rises from 1000.00 to 1100.00. -/
theorem reversal_entry_rereversed :
    bankRR.txsFor 1001 = [⟨1001, "REVERSAL->WITHDRAW", 100, 1100⟩] ∧
    (reverseLastTransaction bankRR 1001).1 ≠ .error .notReversible ∧
    (reverseLastTransaction bankRR 1001).1 = .ok () ∧
    (reverseLastTransaction bankRR 1001).2.balanceOf 1001 = some 1100 := by
  have hok : (reverseLastTransaction bankRR 1001).1 = .ok () ∧
      (reverseLastTransaction bankRR 1001).2.balanceOf 1001 = some 1100 := by
    norm_num [reverseLastTransaction, bankRR, acctRR, Bank.txsFor, List.lookup,
      Account.deposit, Account.withdraw, Account.isActive, maxSingleDeposit,
      Bank.balanceOf, Bank.getAccount, updAccounts,
      show strContains "REVERSAL->WITHDRAW" "DEPOSIT" = false from rfl,
      show strContains "REVERSAL->WITHDRAW" "TRANSFER_IN" = false from rfl,
      show strContains "REVERSAL->WITHDRAW" "WITHDRAW" = true from rfl]
  exact ⟨rfl, by rw [hok.1]; simp, hok.1, hok.2⟩

/-- Claim C6 (amended): `reverse_last_transaction` reads the most recent
log entry for the account and dispatches on substring containment: an
action containing `DEPOSIT` or `TRANSFER_IN` is compensated by a
withdrawal (logged as a REVERSAL entry with negated amount), otherwise an
action containing `WITHDRAW` or `TRANSFER_OUT` is compensated by a deposit
(logged as a REVERSAL entry), and only actions containing none of the four
substrings (such as CREATE or OVERDRAFT_FEE) fail with NotReversible — so
previously written REVERSAL entries are matched by their embedded original
action and compensated again rather than rejected. In every case the
original log is preserved as a prefix (no existing entry is modified). -/
theorem reverse_last_dispatch (b : Bank) (n : Nat) (e : LogEntry)
    (rest : List LogEntry) (acc : Account)
    (hl : b.txsFor n = e :: rest) (ha : b.accounts.lookup n = some acc) :
    (((strContains e.action "DEPOSIT" || strContains e.action "TRANSFER_IN") = true) →
      ∀ acc', acc.withdraw e.amount = .ok acc' →
        reverseLastTransaction b n =
          (.ok (), { b with
            accounts := updAccounts b.accounts n acc',
            log := b.log ++ [⟨n, "REVERSAL->" ++ e.action, -e.amount, acc'.balance⟩] })) ∧
    (((strContains e.action "DEPOSIT" || strContains e.action "TRANSFER_IN") = false) →
      ((strContains e.action "WITHDRAW" || strContains e.action "TRANSFER_OUT") = true) →
      ∀ acc', acc.deposit e.amount = .ok acc' →
        reverseLastTransaction b n =
          (.ok (), { b with
            accounts := updAccounts b.accounts n acc',
            log := b.log ++ [⟨n, "REVERSAL->" ++ e.action, e.amount, acc'.balance⟩] })) ∧
    (((strContains e.action "DEPOSIT" || strContains e.action "TRANSFER_IN") = false) →
      ((strContains e.action "WITHDRAW" || strContains e.action "TRANSFER_OUT") = false) →
      reverseLastTransaction b n = (.error .notReversible, b)) ∧
    (∃ tail, (reverseLastTransaction b n).2.log = b.log ++ tail) := by
  refine ⟨fun hc acc' hw => ?_, fun hc hd acc' hw => ?_, fun hc hd => ?_, ?_⟩
  · unfold reverseLastTransaction
    simp only [hl, ha, hc, if_true, hw]
  · unfold reverseLastTransaction
    simp only [hl, ha, hc, hd, if_true, if_false, Bool.false_eq_true, hw]
  · unfold reverseLastTransaction
    simp only [hl, ha, hc, hd, if_true, if_false, Bool.false_eq_true]
  · unfold reverseLastTransaction
    simp only [hl, ha]
    split_ifs with h1 h2
    · cases hw : acc.withdraw e.amount with
      | ok acc' => exact ⟨_, rfl⟩
      | error err => exact ⟨[], by simp⟩
    · cases hw : acc.deposit e.amount with
      | ok acc' => exact ⟨_, rfl⟩
      | error err => exact ⟨[], by simp⟩
    · exact ⟨[], by simp⟩

/-- Witness for the amended claim C6: reversing a plain DEPOSIT entry of
100.00 withdraws 100.00 and appends a `REVERSAL->DEPOSIT` log entry. -/
theorem reverse_last_dispatch_witness :
    bankRV.txsFor 1001 = [entryRV] ∧
    (strContains entryRV.action "DEPOSIT" || strContains entryRV.action "TRANSFER_IN") = true ∧
    acctRV.withdraw entryRV.amount = .ok acctRV900 ∧
    reverseLastTransaction bankRV 1001 =
      (.ok (), { bankRV with
        accounts := updAccounts bankRV.accounts 1001 acctRV900,
        log := bankRV.log ++
          [⟨1001, "REVERSAL->" ++ entryRV.action, -entryRV.amount, acctRV900.balance⟩] }) := by
  have hw : acctRV.withdraw entryRV.amount = .ok acctRV900 := by
    norm_num [Account.withdraw, acctRV, acctRV900, entryRV, Account.isActive, minBalance]
  exact ⟨rfl, rfl, hw,
    (reverse_last_dispatch bankRV 1001 entryRV [] acctRV rfl rfl).1 rfl acctRV900 hw⟩

/-- Claim C7: starting from a fresh service, every sequence of
create-account and deletion operations (including delete-all) allocates
the consecutive numbers 1001, 1002, … in order, so each successful
creation returns a number strictly greater than every number allocated
before it and no number is ever reused. -/
theorem account_numbers_sequential (ops : List LedgerOp) :
    (runOps initLedger ops).2 = List.range' 1001 (runOps initLedger ops).2.length ∧
    List.Pairwise (· < ·) (runOps initLedger ops).2 := by
  obtain ⟨k, hk, -⟩ := runOps_allocs ops initLedger
  have hlen : (List.range' 1001 k).length = k := by simp
  constructor
  · rw [hk]
    show List.range' 1001 k = List.range' 1001 (List.range' 1001 k).length
    rw [hlen]
  · rw [hk]
    exact List.pairwise_lt_range' _ _ _ (by omega)

/-- Claim C8: saving an account collection whose account numbers are
pairwise distinct and loading it back yields the same multiset of
`(accountNumber, balance, status, accountType)` tuples, balances compared
after rounding to 2 decimal places. -/
theorem save_load_roundtrip (accounts : List (Nat × Account))
    (h : (accounts.map fun p => p.2.accountNumber).Nodup) :
    ((loadAccounts (saveAccounts accounts)).map fun p => tupleOf p.2).Perm
      (accounts.map fun p => tupleOf p.2) := by
  unfold saveAccounts loadAccounts
  set sorted := accounts.mergeSort fun p q => p.1 ≤ q.1 with hsorted
  have hperm : sorted.Perm accounts := List.mergeSort_perm accounts _
  have hkeys : ((sorted.map fun p => p.2.toDict).map fun r => r.account_number) =
      sorted.map fun p => p.2.accountNumber := by
    simp [Account.toDict]
  have hnd2 : ((sorted.map fun p => p.2.toDict).map fun r => r.account_number).Nodup := by
    rw [hkeys]
    exact ((hperm.map fun p => p.2.accountNumber).nodup_iff).mpr h
  rw [load_foldl _ [] hnd2 (by simp)]
  rw [List.nil_append, List.map_map, List.map_map]
  have hstep : List.map (((fun p => tupleOf p.2) ∘ fun r => (r.account_number, Account.fromDict r)) ∘
      fun p : Nat × Account => p.2.toDict) sorted = List.map (fun p => tupleOf p.2) sorted := by
    simp [Function.comp_def, tupleOf_fromDict_toDict]
  rw [hstep]
  exact hperm.map fun p => tupleOf p.2

/-- Witness for claim C8 on a concrete two-account collection, one balance
with more than two decimal places. -/
theorem save_load_roundtrip_witness :
    ((colW.map fun p => p.2.accountNumber).Nodup) ∧
    ((loadAccounts (saveAccounts colW)).map fun p => tupleOf p.2).Perm
      (colW.map fun p => tupleOf p.2) :=
  ⟨by decide, save_load_roundtrip colW (by decide)⟩

/-- Claim C9: running the due scheduled transfers keeps exactly the jobs
with `execute_at > now` (unchanged, in order) and hands each job with
`execute_at ≤ now` to the transfer exactly once — a failed execution is
consumed all the same. -/
theorem run_due_scheduled_one_shot (jobs : List ScheduledJob) (now : Nat) (b : Bank) :
    (runDueScheduled jobs now b).1 = jobs.filter (fun j => decide (now < j.executeAt)) ∧
    (runDueScheduled jobs now b).2.1.map Prod.fst =
      jobs.filter (fun j => decide (j.executeAt ≤ now)) := by
  induction jobs generalizing b with
  | nil => exact ⟨rfl, rfl⟩
  | cons j rest ih =>
    by_cases h : j.executeAt ≤ now
    · obtain ⟨ih1, ih2⟩ := ih (serviceTransfer b j.fromAcc j.toAcc j.amount).2
      refine ⟨?_, ?_⟩
      · simp [runDueScheduled, h, Nat.not_lt.mpr h, ih1]
      · simp [runDueScheduled, h, ih2]
    · obtain ⟨ih1, ih2⟩ := ih b
      refine ⟨?_, ?_⟩
      · simp [runDueScheduled, h, Nat.lt_of_not_le h, ih1]
      · simp [runDueScheduled, h, ih2]

/-- Claim C10: the 100000.00 single-transaction cap enforced by deposit is
not enforced by transfer — transferring 200000.00 between two active
Savings accounts (source stays above its floor) succeeds and credits the
destination in full, while a direct deposit of 200000.00 into the
destination fails with the cap error. -/
theorem transfer_bypasses_deposit_cap :
    maxSingleDeposit < 200000 ∧
    minBalance srcBig.accountType ≤ srcBig.balance - 200000 ∧
    (serviceTransfer bankCap 2001 2002 200000).1 = .ok () ∧
    (serviceTransfer bankCap 2001 2002 200000).2.balanceOf 2002 = some 201000 ∧
    (serviceDeposit bankCap 2002 200000).1 = .error .exceedsCap := by
  refine ⟨by norm_num [maxSingleDeposit], by norm_num [srcBig, minBalance], ?_⟩
  norm_num [serviceTransfer, serviceDeposit, bankCap, srcBig, dstSmall, Account.isActive,
    Account.deposit, maxSingleDeposit, List.lookup, Bank.balanceOf, Bank.getAccount,
    adjustBalance, show ((2002 : Nat) == 2001) = false from rfl]

end JioBank
